import Mathlib

/-!
Shallow embedding of `src/connect.py` (the `AdobeAnalytics` client class) and
proofs about the claims of its specification.

Modelling conventions:
* Python dicts used as HTTP headers become insertion-ordered association lists
  (`Headers`); `dict.update` becomes `dictUpdate`, which replaces the value of
  an existing key in place and appends new keys at the end, exactly like
  CPython dicts.
* Network responses are data passed in: a function that inspects a response is
  embedded as a function of that response value.
* A Python function that can fall off the end without `return`, or that would
  raise an uncaught runtime fault (`IndexError`, `UnboundLocalError`), is
  embedded with an `Option` result where `none` marks that fault / implicit
  `None`.
* Instants and dates are `Nat` (Unix seconds resp. days since an epoch).
-/

namespace AdobeAnalytics

/-- Embeds the module constant `BASE_URL` (connect.py line 19). -/
def BASE_URL : String := "https://analytics.adobe.io/"

/-- Embeds the module constant `JWT_URL` (connect.py line 20). -/
def JWT_URL : String := "https://ims-na1.adobelogin.com/ims/exchange/jwt"

/-- Embeds the `RequestType` enum (connect.py lines 23-25). -/
inductive RequestType where
  | GET
  | POST
deriving DecidableEq, Repr

/-- A Python argument that is either a string literal or a `RequestType` enum
member: the `request_type` parameter of `make_request` defaults to the string
`"GET"` but callers may pass an enum member, so its runtime type is this sum. -/
inductive ReqTypeArg where
  | str (s : String)
  | enum (t : RequestType)
deriving DecidableEq, Repr

/-- Python equality between a `request_type` argument and a string literal:
`str == str` compares the strings, while an `Enum` member is never equal to a
string (CPython default `Enum.__eq__` is identity-based). This embeds the
comparisons `request_type == "GET"` / `request_type == "POST"` on
connect.py lines 142 and 150. -/
def reqTypeEq (a : ReqTypeArg) (s : String) : Bool :=
  match a with
  | .str t => t == s
  | .enum _ => false

/-- Headers are insertion-ordered key-value lists, like CPython dicts. -/
abbrev Headers := List (String × String)

/-- Python `d[k]`-style lookup returning the value of the first (unique in a
dict) occurrence of key `k`. -/
def dictGet? (d : Headers) (k : String) : Option String :=
  (d.find? (fun p => p.1 == k)).map (·.2)

/-- One step of CPython `dict.update`: if the key exists its value is replaced
in place, otherwise the pair is appended at the end. -/
def dictInsert (d : Headers) (k v : String) : Headers :=
  if d.any (fun p => p.1 == k) then
    d.map (fun p => if p.1 == k then (k, v) else p)
  else
    d ++ [(k, v)]

/-- CPython `d.update(e)`: fold the entries of `e` into `d`, later entries of
`e` overriding earlier ones. -/
def dictUpdate (d : Headers) (e : Headers) : Headers :=
  e.foldl (fun acc p => dictInsert acc p.1 p.2) d

/-- The last binding of key `k` in an entry list (the one that survives a
`dict.update` with that list). -/
def lookupLast (e : Headers) (k : String) : Option String :=
  match e with
  | [] => none
  | p :: t =>
    match lookupLast t k with
    | some v => some v
    | none => if p.1 = k then some p.2 else none

/-- The per-instance session state of the `AdobeAnalytics` class: `RSID` and
the fields set in `__init__` / `_get_global_id_`, plus the `CLIENT_ID`
environment value read by `make_header`. -/
structure Session where
  RSID : String
  ACCESS_TOKEN : String
  CLIENT_ID : String
  GLOBAL_CO_ID : String
  BASE_REPORTING_URL : String
deriving DecidableEq, Repr

/-- The `base_header` dict literal of `make_header` (connect.py lines 107-111). -/
def baseHeader (s : Session) : Headers :=
  [("Accept", "application/json"),
   ("Authorization", "Bearer " ++ s.ACCESS_TOKEN),
   ("x-api-key", s.CLIENT_ID)]

/-- Embeds `AdobeAnalytics.make_header` (connect.py lines 105-120):
builds the base header; returns it unchanged when `global_id` is true;
otherwise adds the tenant header and then merges `additional_header` when one
was passed (`isinstance(additional_header, dict)` becomes `Option.isSome`). -/
def make_header (s : Session) (additional_header : Option Headers)
    (global_id : Bool) : Headers :=
  let base := baseHeader s
  if global_id then base
  else
    let base := dictUpdate base [("x-proxy-global-company-id", s.GLOBAL_CO_ID)]
    match additional_header with
    | some add => dictUpdate base add
    | none => base

/-- The response of the identity (JWT exchange) endpoint, as consumed by
`_get_access_token_`: its HTTP status code and the `access_token` field of its
JSON body. -/
structure TokenResponse where
  status : Nat
  access_token : String
deriving DecidableEq, Repr

/-- Seconds in `dt.timedelta(days=1)`. -/
def secondsPerDay : Nat := 86400

/-- The JWT claims dict built by `_get_access_token_` (connect.py lines 53-59).
`scopeFlag` stands for the `ent_analytics_bulk_ingest_sdk` claim. -/
structure JwtPayload where
  exp : Nat
  iss : String
  sub : String
  scopeFlag : Bool
  aud : String
deriving DecidableEq, Repr

/-- Embeds the payload construction of `_get_access_token_` (connect.py lines
40-59): the `expiration_date` parameter (connect.py lines 44-49) is normalised
to a timestamp, but the `exp` claim on line 54 is computed as
`now + timedelta(days=1)` independently of it. `now` is the instant of the
call (the two `dt.datetime.now()` calls are identified). -/
def build_jwt_payload (now : Nat) (ORG_ID TECH_ID CLIENT_ID : String)
    (expiration_date : Option Nat) : JwtPayload :=
  let expiration_ts : Nat :=
    match expiration_date with
    | none => now + secondsPerDay
    | some d => d
  { exp := now + secondsPerDay
    iss := ORG_ID
    sub := TECH_ID
    scopeFlag := true
    aud := "https://ims-na1.adobelogin.com/c/" ++ CLIENT_ID }

/-- Embeds the result of `_get_access_token_` (connect.py lines 73-76) as a
function of the identity endpoint's response: on status 200 the
`access_token` field is returned; on any other status the function falls off
the end, i.e. returns Python `None`, embedded as `none`. -/
def get_access_token (resp : TokenResponse) : Option String :=
  if resp.status == 200 then some resp.access_token else none

/-- One entry of `imsOrgs[_].companies` in the discovery response. -/
structure Company where
  globalCompanyId : String
deriving DecidableEq, Repr

/-- One entry of `imsOrgs` in the discovery response. -/
structure ImsOrg where
  companies : List Company
deriving DecidableEq, Repr

/-- The JSON body of the `discovery/me` response, as consumed by
`_get_global_id_`. -/
structure DiscoveryResponse where
  imsOrgs : List ImsOrg
deriving DecidableEq, Repr

/-- Embeds the extraction `global_details["imsOrgs"][0]["companies"][0]
["globalCompanyId"]` of `_get_global_id_` (connect.py lines 82-84): each `[0]`
is a raw index, so an empty `imsOrgs` or `companies` list raises `IndexError`,
embedded as `none`. -/
def get_global_id (resp : DiscoveryResponse) : Option String :=
  ((resp.imsOrgs[0]?).bind (fun org => org.companies[0]?)).map
    (·.globalCompanyId)

/-- Embeds the return value of `_get_global_id_` (connect.py line 85): the base
reporting URL built from the extracted global company id, `none` when the
extraction faulted. -/
def base_reporting_url (resp : DiscoveryResponse) : Option String :=
  (get_global_id resp).map
    (fun gid => "https://analytics.adobe.io/api/" ++ gid ++ "/")

/-- Python's single-character substring test `c in s` (`"?" in endpoint`,
`"/" in x["id"]`): membership of the character among the string's
characters. -/
def strContains (s : String) (c : Char) : Bool :=
  s.data.contains c

/-- Python's `s.split(c)` for a single-character separator: split the
character list on that character. -/
def pySplit (s : String) (c : Char) : List String :=
  (s.data.splitOn c).map (fun l => String.mk l)

/-- Embeds the RSID appending of `make_request` (connect.py lines 137-140). -/
def addRsid (rsid endpoint : String) : String :=
  if strContains endpoint '?' then endpoint ++ "&rsid=" ++ rsid
  else endpoint ++ "?rsid=" ++ rsid

/-- The HTTP request dispatched by `make_request`, with the body type `β` of
the `post_body` argument left generic (Python passes arbitrary dicts). -/
inductive DispatchedRequest (β : Type) where
  | get (url : String) (headers : Headers)
  | post (url : String) (headers : Headers) (body : β)
deriving DecidableEq, Repr

/-- The URL of a dispatched request. -/
def DispatchedRequest.url {β : Type} : DispatchedRequest β → String
  | .get u _ => u
  | .post u _ _ => u

/-- Embeds `AdobeAnalytics.make_request` (connect.py lines 122-157) up to the
network call: the observable behaviour is which HTTP request is dispatched.
`truthy` is Python truthiness on the `post_body` argument's type (line 150
tests `post_body`, not `post_body is not None`). In the source the
`request_type` parameter defaults to the string literal `"GET"`; callers
using the default are embedded by passing `ReqTypeArg.str "GET"`. When
neither the `== "GET"` branch nor the `== "POST" and post_body` branch runs,
line 157 reads the unbound local `response` (`UnboundLocalError`), embedded
as `none`. -/
def make_request {β : Type} (s : Session) (truthy : β → Bool)
    (endpoint : String) (url : Option String) (request_header : Option Headers)
    (request_type : ReqTypeArg) (post_body : Option β) :
    Option (DispatchedRequest β) :=
  let hdr := request_header.getD (make_header s none false)
  let u := url.getD s.BASE_REPORTING_URL
  let ep := addRsid s.RSID endpoint
  if reqTypeEq request_type "GET" then some (.get (u ++ ep) hdr)
  else
    post_body.bind (fun b =>
      if reqTypeEq request_type "POST" && truthy b then
        some (.post (u ++ ep) hdr b)
      else none)

/-- Python truthiness of a dict argument: non-empty. -/
def dictTruthy (d : Headers) : Bool := !d.isEmpty

/-- The default values of the `start` and `end` parameters of
`set_date_range` (connect.py lines 161-162). In Python these default
expressions are evaluated once, when the `def` statement runs at module load;
so they are a function of the load day, not of the call day. Days are counted
as `Nat` since an epoch. -/
structure DateDefaults where
  start : Nat
  stop : Nat
deriving DecidableEq, Repr

/-- Embeds the evaluation of `set_date_range`'s default expressions
`dt.date.today() - dt.timedelta(days=7)` and `dt.date.today()` at module load
time (`loadDay`). -/
def set_date_range_defaults (loadDay : Nat) : DateDefaults :=
  { start := loadDay - 7, stop := loadDay }

/-- Embeds `AdobeAnalytics.set_date_range` (connect.py lines 159-170) as far
as the dates it stores: each omitted argument takes the default captured at
load time. Returns the stored `(start_date, end_date)` pair. -/
def set_date_range (defaults : DateDefaults) (start? stop? : Option Nat) :
    Nat × Nat :=
  (match start? with | some d => d | none => defaults.start,
   match stop? with | some d => d | none => defaults.stop)

/-- Embeds `__format_date_range__` (connect.py lines 172-178) on already
rendered `YYYY-MM-DD` date strings. -/
def format_date_range (start_date end_date : String) : String :=
  start_date ++ "T00:00:00.000/" ++ end_date ++ "T00:00:00.000"

/-- Embeds the endpoint string built by `get_segments` (connect.py lines
184-185): the `page` parameter of the signature does not occur in the
f-string `f"segments?limit={limit}"`. -/
def get_segments_endpoint (limit : Nat) (page : Nat) : String :=
  "segments?limit=" ++ toString limit

/-- One entry of `metricContainer.metrics`: the dict
`{"columnId": idx, "id": x}` built by `get_report`, also the shape read back
by `_get_metric_names`. -/
structure MetricEntry where
  columnId : Nat
  id : String
deriving DecidableEq, Repr

/-- The `metricContainer` object of a report body or response. -/
structure MetricContainer where
  metrics : List MetricEntry
deriving DecidableEq, Repr

/-- One entry of `globalFilters` in a report body. -/
structure GlobalFilter where
  type : String
  dateRange : String
  segmentId : String
deriving DecidableEq, Repr

/-- The `settings` object of a report body. -/
structure ReportSettings where
  dimensionSort : String
  limit : Nat
deriving DecidableEq, Repr

/-- The `report_body` dict built by `get_report` (connect.py lines 202-221). -/
structure ReportBody where
  rsid : String
  globalFilters : List GlobalFilter
  metricContainer : MetricContainer
  dimension : String
  settings : ReportSettings
deriving DecidableEq, Repr

/-- Embeds the metric list comprehension of `get_report` (connect.py lines
212-214): `[{"columnId": idx, "id": x} for idx, x in enumerate(metrics_list)]`. -/
def report_metrics (metrics_list : List String) : List MetricEntry :=
  metrics_list.enum.map (fun p => { columnId := p.1, id := p.2 })

/-- Embeds the `report_body` construction of `get_report` (connect.py lines
197-221); `dateRange` is the already formatted date-range string from
`__format_date_range__`. -/
def get_report_body (rsid dateRange segment_id dimension : String)
    (metrics_list : List String) : ReportBody :=
  { rsid := rsid
    globalFilters := [{ type := "dateRange", dateRange := dateRange,
                        segmentId := segment_id }]
    metricContainer := { metrics := report_metrics metrics_list }
    dimension := dimension
    settings := { dimensionSort := "asc", limit := 50000 } }

/-- The `json_body` argument of `_get_metric_names`: the part it reads,
`json_body["metricContainer"]["metrics"]`. -/
structure MetricJsonBody where
  metricContainer : MetricContainer
deriving DecidableEq, Repr

/-- Embeds the per-metric expression of `_get_metric_names` (connect.py line
227): `x["id"].split("/")[1] if "/" in x["id"] else f"{idx}-{x['id']}"`.
Python `split("/")[1]` is element 1 of the split; when `id` contains `'/'`
the split has at least two elements, so the `getD` default is never used. -/
def metric_name (idx : Nat) (id : String) : String :=
  if strContains id '/' then (pySplit id '/').getD 1 ""
  else toString idx ++ "-" ++ id

/-- Embeds `_get_metric_names` (connect.py lines 224-229). -/
def get_metric_names (json_body : MetricJsonBody) : List String :=
  json_body.metricContainer.metrics.enum.map
    (fun p => metric_name p.1 p.2.id)

/-- Modelled from the spec: the metric-name rule as the specification words
it, "if id contains a slash, take the substring after the FIRST slash" — i.e.
everything after the first separator, not just the second split component.
Stated for comparison with `metric_name`, which embeds the source. -/
def metric_name_spec (idx : Nat) (id : String) : String :=
  if strContains id '/' then
    String.mk ((id.data.dropWhile (fun c => !(c == '/'))).drop 1)
  else toString idx ++ "-" ++ id

/-! Helper lemmas about the dict model. -/

theorem dictGet?_cons (p : String × String) (t : Headers) (k : String) :
    dictGet? (p :: t) k = if p.1 = k then some p.2 else dictGet? t k := by
  by_cases hp : p.1 = k
  · simp [dictGet?, hp]
  · simp [dictGet?, hp]

theorem dictGet?_map_ne (d : Headers) (k v k' : String) (h : k' ≠ k) :
    dictGet? (d.map (fun p => if p.1 == k then (k, v) else p)) k' =
      dictGet? d k' := by
  induction d with
  | nil => rfl
  | cons p t ih =>
    by_cases hpk : p.1 = k
    · simp only [List.map_cons, hpk, beq_self_eq_true, if_pos]
      rw [dictGet?_cons, dictGet?_cons]
      have h1 : ¬((k, v).1 = k') := fun hc => h (hc.symm)
      have h2 : ¬(p.1 = k') := fun hc => h (by rw [← hc, hpk])
      rw [if_neg h1, if_neg h2, ih]
    · have hb : (p.1 == k) = false := by simp [hpk]
      simp only [List.map_cons, hb, Bool.false_eq_true, if_false]
      rw [dictGet?_cons, dictGet?_cons, ih]

theorem dictGet?_map_self (d : Headers) (k v : String) :
    dictGet? (d.map (fun p => if p.1 == k then (k, v) else p)) k =
      if d.any (fun p => p.1 == k) then some v else none := by
  induction d with
  | nil => rfl
  | cons p t ih =>
    by_cases hpk : p.1 = k
    · simp only [List.map_cons, hpk, beq_self_eq_true, if_pos, List.any_cons,
        Bool.true_or]
      rw [dictGet?_cons]
      simp
    · have hb : (p.1 == k) = false := by simp [hpk]
      simp only [List.map_cons, hb, Bool.false_eq_true, if_false,
        List.any_cons, Bool.false_or]
      rw [dictGet?_cons, if_neg hpk, ih]

theorem dictGet?_dictInsert (d : Headers) (k v k' : String) :
    dictGet? (dictInsert d k v) k' =
      if k' = k then some v else dictGet? d k' := by
  unfold dictInsert
  by_cases hmem : d.any (fun p => p.1 == k) = true
  · rw [if_pos hmem]
    by_cases hk : k' = k
    · subst hk
      rw [dictGet?_map_self, if_pos hmem, if_pos rfl]
    · rw [dictGet?_map_ne d k v k' hk, if_neg hk]
  · rw [if_neg hmem]
    have hnone : d.find? (fun p => p.1 == k) = none := by
      rw [List.find?_eq_none]
      intro x hx hpx
      exact hmem (List.any_eq_true.mpr ⟨x, hx, hpx⟩)
    by_cases hk : k' = k
    · subst hk
      simp only [dictGet?, List.find?_append, hnone, Option.none_or]
      simp
    · have htail : List.find? (fun p => p.1 == k') [(k, v)] = none := by
        have hkk : ¬k = k' := fun hc => hk hc.symm
        simp [hkk]
      simp only [dictGet?, List.find?_append, htail, Option.or_none, if_neg hk]

theorem dictGet?_dictUpdate (d e : Headers) (k : String) :
    dictGet? (dictUpdate d e) k =
      match lookupLast e k with
      | some v => some v
      | none => dictGet? d k := by
  induction e generalizing d with
  | nil => rfl
  | cons p t ih =>
    show dictGet? (dictUpdate (dictInsert d p.1 p.2) t) k = _
    rw [ih]
    cases hlt : lookupLast t k with
    | some v => simp [lookupLast, hlt]
    | none =>
      simp only [lookupLast, hlt, dictGet?_dictInsert]
      by_cases h : p.1 = k
      · rw [if_pos h, if_pos h.symm]
      · rw [if_neg h, if_neg (fun hc => h hc.symm)]

/-- A concrete session used to evaluate the embedded operations. -/
def s0 : Session :=
  { RSID := "r0", ACCESS_TOKEN := "tok0", CLIENT_ID := "cid0",
    GLOBAL_CO_ID := "gco0",
    BASE_REPORTING_URL := "https://analytics.adobe.io/api/gco0/" }

theorem dictGet?_baseHeader_accept (s : Session) :
    dictGet? (baseHeader s) "Accept" = some "application/json" := rfl

theorem dictGet?_baseHeader_auth (s : Session) :
    dictGet? (baseHeader s) "Authorization" =
      some ("Bearer " ++ s.ACCESS_TOKEN) := rfl

theorem dictGet?_baseHeader_apikey (s : Session) :
    dictGet? (baseHeader s) "x-api-key" = some s.CLIENT_ID := rfl

theorem dictGet?_baseHeader_tenant (s : Session) :
    dictGet? (baseHeader s) "x-proxy-global-company-id" = none := rfl

/-- Claim C1: the claim says a non-2xx identity response raises an
AuthenticationFailure and a failure never yields an empty/null result. The
source (connect.py lines 73-76) instead falls off the end of
`_get_access_token_` and returns Python `None` on any non-200 status; on 200
it does return the `access_token` field. This theorem evaluates the embedded
exchange at the failing input (status 401). -/
theorem C1_token_exchange_returns_none_on_failure :
    get_access_token { status := 401, access_token := "tok" } = none
    ∧ get_access_token { status := 200, access_token := "tok" } = some "tok" :=
  ⟨rfl, rfl⟩

/-- Claim C2: the claim says tenant resolution fails with a typed
DiscoveryFailure on an empty/missing `imsOrgs` or `companies` list, never an
out-of-bounds fault. The source (connect.py lines 82-85) indexes
`imsOrgs[0]["companies"][0]` directly, so those inputs raise `IndexError`
(embedded as `none`); on a well-formed response it does extract the company
id and build the base reporting URL from the fixed API root. -/
theorem C2_discovery_empty_lists_fault :
    get_global_id { imsOrgs := [{ companies := [] }] } = none
    ∧ get_global_id { imsOrgs := [] } = none
    ∧ get_global_id
        { imsOrgs := [{ companies := [{ globalCompanyId := "gcid" }] }] } =
        some "gcid"
    ∧ base_reporting_url
        { imsOrgs := [{ companies := [{ globalCompanyId := "gcid" }] }] } =
        some "https://analytics.adobe.io/api/gcid/" :=
  ⟨rfl, rfl, rfl, rfl⟩

/-- Claim C3: the claim says `make_request` with `request_type =
RequestType.GET` dispatches a GET and with `RequestType.POST` plus a body
dispatches a POST. In the source (connect.py lines 142, 150) the argument is
compared against the string literals `"GET"`/`"POST"`, which an enum member
never equals, so with an enum argument no branch runs and line 157 hits
`UnboundLocalError` (embedded as `none`); the string arguments, by contrast,
do dispatch. -/
theorem C3_enum_request_type_never_dispatches :
    make_request (β := Headers) s0 dictTruthy "reports" none none
        (.enum .GET) none = none
    ∧ make_request (β := Headers) s0 dictTruthy "reports" none none
        (.enum .POST) (some [("k", "v")]) = none
    ∧ (make_request (β := Headers) s0 dictTruthy "reports" none none
        (.str "GET") none).isSome = true
    ∧ (make_request (β := Headers) s0 dictTruthy "reports" none none
        (.str "POST") (some [("k", "v")])).isSome = true :=
  ⟨rfl, rfl, rfl, rfl⟩

/-- Claim C4: the claim says a `set_date_range()` call without arguments
stores `call day - 7` and `call day`, regardless of when the module was
loaded. In the source (connect.py lines 161-162) the default expressions are
evaluated once at definition time, so a call on day 101 after a load on day
100 stores `(93, 100)`, not `(94, 101)`. -/
theorem C4_date_defaults_frozen_at_load :
    set_date_range (set_date_range_defaults 100) none none = (93, 100)
    ∧ ((93, 100) : Nat × Nat) ≠ (101 - 7, 101) :=
  ⟨rfl, by decide⟩

/-- Claim C6: the claim says an explicit assertion-expiry override becomes
the `exp` claim of the signed assertion. In the source (connect.py lines
44-54) the override is converted to a timestamp but the payload's `exp` is
recomputed as `now + timedelta(days=1)`, ignoring it: at `now = 1000` with
override `5000` the payload carries `exp = 87400`, not `5000`. -/
theorem C6_expiry_override_ignored :
    (build_jwt_payload 1000 "org" "tech" "client" (some 5000)).exp = 87400
    ∧ (87400 : Nat) ≠ 5000 :=
  ⟨rfl, by decide⟩

/-- Claim C10: `get_segments` builds the endpoint `segments?limit={limit}`
(connect.py line 185) without ever reading its `page` parameter, so for any
two page values the endpoint string and the dispatched request coincide. -/
theorem C10_get_segments_page_independent (s : Session) (limit p1 p2 : Nat) :
    get_segments_endpoint limit p1 = get_segments_endpoint limit p2
    ∧ make_request (β := Headers) s dictTruthy (get_segments_endpoint limit p1)
        none none (.str "GET") none =
      make_request (β := Headers) s dictTruthy (get_segments_endpoint limit p2)
        none none (.str "GET") none :=
  ⟨rfl, rfl⟩

/-- Applies `C10_get_segments_page_independent` at `limit = 10`, pages 0 and
5, on the concrete session `s0`. -/
theorem C10_get_segments_page_independent_witness :
    get_segments_endpoint 10 0 = get_segments_endpoint 10 5
    ∧ make_request (β := Headers) s0 dictTruthy (get_segments_endpoint 10 0)
        none none (.str "GET") none =
      make_request (β := Headers) s0 dictTruthy (get_segments_endpoint 10 5)
        none none (.str "GET") none :=
  C10_get_segments_page_independent s0 10 0 5

/-- Claim C5 counterexample: the claim says an id with several slashes maps
to everything after the FIRST slash, so `"metrics/a/b"` should give
`"a/b"` (as `metric_name_spec`, modelled from the spec's words, does). The
source's `split("/")[1]` yields only the second split component `"a"`. -/
theorem C5_multislash_counterexample :
    get_metric_names
        { metricContainer :=
            { metrics := [{ columnId := 0, id := "metrics/a/b" }] } } = ["a"]
    ∧ metric_name_spec 0 "metrics/a/b" = "a/b"
    ∧ ("a" : String) ≠ "a/b" :=
  ⟨rfl, rfl, by decide⟩

/-- Claim C5 (amended): for every metric container and position `i` holding
an entry with identifier `id`, the extractor's output at position `i` is the
element at index 1 of splitting `id` on `"/"` (the segment between the first
and second slash) when `id` contains a slash, and `"{i}-{id}"` otherwise;
the output has one name per metric, in input order. -/
theorem C5_metric_names_amended (body : MetricJsonBody) (i : Nat)
    (e : MetricEntry) (h : body.metricContainer.metrics[i]? = some e) :
    (get_metric_names body).length = body.metricContainer.metrics.length
    ∧ (get_metric_names body)[i]? =
        some (if strContains e.id '/' then (pySplit e.id '/').getD 1 ""
              else toString i ++ "-" ++ e.id) := by
  constructor
  · simp [get_metric_names]
  · simp only [get_metric_names, List.getElem?_map, List.getElem?_enum, h,
      Option.map_some']
    rfl

/-- Applies `C5_metric_names_amended` to a two-metric container at position 0
(id `"metrics/visits"`, giving `"visits"`). -/
theorem C5_metric_names_amended_witness :
    ({ metricContainer :=
        { metrics := [{ columnId := 0, id := "metrics/visits" },
                      { columnId := 1, id := "customEvent" }] } } :
      MetricJsonBody).metricContainer.metrics[0]? =
        some { columnId := 0, id := "metrics/visits" }
    ∧ ((get_metric_names
          { metricContainer :=
              { metrics := [{ columnId := 0, id := "metrics/visits" },
                            { columnId := 1, id := "customEvent" }] } }).length
          = 2
       ∧ (get_metric_names
          { metricContainer :=
              { metrics := [{ columnId := 0, id := "metrics/visits" },
                            { columnId := 1, id := "customEvent" }] } })[0]? =
          some (if strContains "metrics/visits" '/' then
                  (pySplit "metrics/visits" '/').getD 1 ""
                else toString 0 ++ "-" ++ "metrics/visits")) :=
  ⟨rfl,
   C5_metric_names_amended
     { metricContainer :=
         { metrics := [{ columnId := 0, id := "metrics/visits" },
                       { columnId := 1, id := "customEvent" }] } }
     0 { columnId := 0, id := "metrics/visits" } rfl⟩

/-- Claim C8: for every metrics list of length `n`, `get_report` builds
`metricContainer.metrics` with `n` entries in input order, the entry at
position `i` carrying `columnId = i` and the `i`-th input id; the column ids
are exactly `0, …, n-1`, hence unique, zero-based and contiguous. -/
theorem C8_report_metric_column_ids (rsid dateRange segment_id dim : String)
    (metrics_list : List String) :
    (get_report_body rsid dateRange segment_id dim
        metrics_list).metricContainer.metrics.length = metrics_list.length
    ∧ (∀ i : Nat,
        (get_report_body rsid dateRange segment_id dim
            metrics_list).metricContainer.metrics[i]? =
          metrics_list[i]?.map (fun x => { columnId := i, id := x }))
    ∧ (get_report_body rsid dateRange segment_id dim
          metrics_list).metricContainer.metrics.map (fun e => e.columnId) =
        List.range metrics_list.length := by
  refine ⟨?_, ?_, ?_⟩
  · simp [get_report_body, report_metrics]
  · intro i
    simp only [get_report_body, report_metrics, List.getElem?_map,
      List.getElem?_enum]
    cases metrics_list[i]? <;> rfl
  · show List.map _ (List.map _ metrics_list.enum) = _
    rw [List.map_map]
    exact List.enum_map_fst metrics_list

/-- Applies `C8_report_metric_column_ids` to the two-metric list of the
specification's example, reading off the entry at position 1. -/
theorem C8_report_metric_column_ids_witness :
    (get_report_body "r" "d" "seg" "dim"
        ["metrics/visits", "metrics/revenue"]).metricContainer.metrics.length =
      (["metrics/visits", "metrics/revenue"] : List String).length
    ∧ (get_report_body "r" "d" "seg" "dim"
        ["metrics/visits", "metrics/revenue"]).metricContainer.metrics[1]? =
      ((["metrics/visits", "metrics/revenue"] : List String)[1]?).map
        (fun x => { columnId := 1, id := x })
    ∧ (get_report_body "r" "d" "seg" "dim"
        ["metrics/visits", "metrics/revenue"]).metricContainer.metrics.map
        (fun e => e.columnId) = List.range 2 :=
  ⟨(C8_report_metric_column_ids "r" "d" "seg" "dim"
      ["metrics/visits", "metrics/revenue"]).1,
   (C8_report_metric_column_ids "r" "d" "seg" "dim"
      ["metrics/visits", "metrics/revenue"]).2.1 1,
   (C8_report_metric_column_ids "r" "d" "seg" "dim"
      ["metrics/visits", "metrics/revenue"]).2.2⟩

/-- Claim C7: whenever `make_request` dispatches a request (GET or POST),
its URL is the resolved base URL followed by the endpoint with the session
RSID appended as `?rsid=<rsid>` when the endpoint contains no query string
(no `'?'`), and as `&rsid=<rsid>` when it already contains one. -/
theorem C7_rsid_appended {β : Type} (s : Session) (truthy : β → Bool)
    (endpoint : String) (url : Option String)
    (request_header : Option Headers) (request_type : ReqTypeArg)
    (post_body : Option β) (req : DispatchedRequest β)
    (h : make_request s truthy endpoint url request_header request_type
          post_body = some req) :
    (strContains endpoint '?' = true →
      req.url = url.getD s.BASE_REPORTING_URL ++
        (endpoint ++ "&rsid=" ++ s.RSID))
    ∧ (strContains endpoint '?' = false →
      req.url = url.getD s.BASE_REPORTING_URL ++
        (endpoint ++ "?rsid=" ++ s.RSID)) := by
  have hurl : req.url =
      url.getD s.BASE_REPORTING_URL ++ addRsid s.RSID endpoint := by
    simp only [make_request] at h
    by_cases hg : reqTypeEq request_type "GET" = true
    · rw [if_pos hg] at h
      have h2 := Option.some.inj h
      subst h2
      rfl
    · rw [if_neg hg] at h
      cases post_body with
      | none => exact Option.noConfusion h
      | some b =>
        rw [Option.some_bind] at h
        by_cases hp : (reqTypeEq request_type "POST" && truthy b) = true
        · rw [if_pos hp] at h
          have h2 := Option.some.inj h
          subst h2
          rfl
        · rw [if_neg hp] at h
          exact Option.noConfusion h
  constructor
  · intro hc
    rw [hurl, addRsid, if_pos hc]
  · intro hc
    rw [hurl, addRsid]
    rw [if_neg (by rw [hc]; exact Bool.false_ne_true)]

/-- Applies `C7_rsid_appended` to a concrete GET dispatch of endpoint `"e"`
(no query string) against explicit URL `"U"` with RSID `"r0"`. -/
theorem C7_rsid_appended_witness :
    make_request (β := Unit) s0 (fun _ => false) "e" (some "U") (some [])
        (.str "GET") none = some (.get "Ue?rsid=r0" [])
    ∧ ((strContains "e" '?' = true →
        DispatchedRequest.url (β := Unit) (.get "Ue?rsid=r0" []) =
          (some "U" : Option String).getD s0.BASE_REPORTING_URL ++
            ("e" ++ "&rsid=" ++ s0.RSID))
      ∧ (strContains "e" '?' = false →
        DispatchedRequest.url (β := Unit) (.get "Ue?rsid=r0" []) =
          (some "U" : Option String).getD s0.BASE_REPORTING_URL ++
            ("e" ++ "?rsid=" ++ s0.RSID))) :=
  ⟨rfl,
   C7_rsid_appended s0 (fun _ => false) "e" (some "U") (some [])
     (.str "GET") none (.get "Ue?rsid=r0" []) rfl⟩

theorem dictGet?_make_header_false_none (s : Session) (k : String) :
    dictGet? (make_header s none false) k =
      if k = "x-proxy-global-company-id" then some s.GLOBAL_CO_ID
      else dictGet? (baseHeader s) k := by
  show dictGet? (dictInsert (baseHeader s) "x-proxy-global-company-id"
      s.GLOBAL_CO_ID) k = _
  rw [dictGet?_dictInsert]

theorem dictGet?_make_header_false_some (s : Session) (a : Headers)
    (k : String) :
    dictGet? (make_header s (some a) false) k =
      match lookupLast a k with
      | some v => some v
      | none =>
        if k = "x-proxy-global-company-id" then some s.GLOBAL_CO_ID
        else dictGet? (baseHeader s) k := by
  show dictGet? (dictUpdate (dictInsert (baseHeader s)
      "x-proxy-global-company-id" s.GLOBAL_CO_ID) a) k = _
  rw [dictGet?_dictUpdate, dictGet?_dictInsert]

/-- Claim C9 counterexample: the claim says additional headers are merged
last on every call and that the output always contains
`Accept=application/json`. In the source, `make_header` with
`global_id=True` returns the base header before the merge (connect.py lines
113-114), dropping the additional header `("X", "1")`; and with
`global_id=False` an additional `Accept` entry replaces the default value,
so the output carries `Accept=text/csv`, not `application/json`. -/
theorem C9_make_header_counterexample :
    dictGet? (make_header s0 (some [("X", "1")]) true) "X" = none
    ∧ dictGet? (make_header s0 (some [("Accept", "text/csv")]) false)
        "Accept" = some "text/csv"
    ∧ ("text/csv" : String) ≠ "application/json" :=
  ⟨rfl, rfl, by decide⟩

/-- Claim C9 (amended): every `make_header` output contains the keys
`Accept`, `Authorization` and `x-api-key`; it contains the tenant key
`x-proxy-global-company-id` iff `global_id` is false. When `global_id` is
true the output is exactly the base header and additional headers are
ignored. When `global_id` is false the tenant key is set to the resolved
company id and additional headers, if provided, are merged last, their last
binding for a key taking precedence on collision; keys they do not bind keep
the tenant/base values. -/
theorem C9_make_header_amended (s : Session) (add : Option Headers)
    (gid : Bool) :
    (dictGet? (make_header s add gid) "Accept").isSome = true
    ∧ (dictGet? (make_header s add gid) "Authorization").isSome = true
    ∧ (dictGet? (make_header s add gid) "x-api-key").isSome = true
    ∧ ((dictGet? (make_header s add gid)
          "x-proxy-global-company-id").isSome = true ↔ gid = false)
    ∧ (gid = true → make_header s add gid = baseHeader s)
    ∧ (∀ a k v, gid = false → add = some a → lookupLast a k = some v →
        dictGet? (make_header s add gid) k = some v)
    ∧ (∀ a k, gid = false → add = some a → lookupLast a k = none →
        dictGet? (make_header s add gid) k =
          if k = "x-proxy-global-company-id" then some s.GLOBAL_CO_ID
          else dictGet? (baseHeader s) k)
    ∧ (gid = false → add = none →
        dictGet? (make_header s add gid) "x-proxy-global-company-id" =
          some s.GLOBAL_CO_ID) := by
  cases gid with
  | true =>
    have hout : make_header s add true = baseHeader s := by
      cases add <;> rfl
    refine ⟨?_, ?_, ?_, ?_, ?_, ?_, ?_, ?_⟩
    · rw [hout, dictGet?_baseHeader_accept]; rfl
    · rw [hout, dictGet?_baseHeader_auth]; rfl
    · rw [hout, dictGet?_baseHeader_apikey]; rfl
    · rw [hout, dictGet?_baseHeader_tenant]; simp
    · intro _; exact hout
    · intro a k v hgid _ _; exact absurd hgid (by decide)
    · intro a k hgid _ _; exact absurd hgid (by decide)
    · intro hgid _; exact absurd hgid (by decide)
  | false =>
    cases add with
    | none =>
      refine ⟨?_, ?_, ?_, ?_, ?_, ?_, ?_, ?_⟩
      · rw [dictGet?_make_header_false_none]
        simp [dictGet?_baseHeader_accept]
      · rw [dictGet?_make_header_false_none]
        simp [dictGet?_baseHeader_auth]
      · rw [dictGet?_make_header_false_none]
        simp [dictGet?_baseHeader_apikey]
      · rw [dictGet?_make_header_false_none]
        simp
      · intro hgid; exact absurd hgid (by decide)
      · intro a k v _ hadd _; exact Option.noConfusion hadd
      · intro a k _ hadd _; exact Option.noConfusion hadd
      · intro _ _
        rw [dictGet?_make_header_false_none, if_pos rfl]
    | some a =>
      refine ⟨?_, ?_, ?_, ?_, ?_, ?_, ?_, ?_⟩
      · rw [dictGet?_make_header_false_some]
        cases hl : lookupLast a "Accept" with
        | some v => rfl
        | none => simp [dictGet?_baseHeader_accept]
      · rw [dictGet?_make_header_false_some]
        cases hl : lookupLast a "Authorization" with
        | some v => rfl
        | none => simp [dictGet?_baseHeader_auth]
      · rw [dictGet?_make_header_false_some]
        cases hl : lookupLast a "x-api-key" with
        | some v => rfl
        | none => simp [dictGet?_baseHeader_apikey]
      · rw [dictGet?_make_header_false_some]
        cases hl : lookupLast a "x-proxy-global-company-id" with
        | some v => simp
        | none => simp
      · intro hgid; exact absurd hgid (by decide)
      · intro a2 k v _ hadd hlast
        have ha := Option.some.inj hadd
        subst ha
        rw [dictGet?_make_header_false_some, hlast]
      · intro a2 k _ hadd hlast
        have ha := Option.some.inj hadd
        subst ha
        rw [dictGet?_make_header_false_some, hlast]
      · intro _ hadd; exact Option.noConfusion hadd

/-- Applies `C9_make_header_amended` on the concrete session `s0` with
`global_id = false` and an additional header overriding `Accept`. -/
theorem C9_make_header_amended_witness :
    (false = false)
    ∧ lookupLast [("Accept", "text/csv")] "Accept" = some "text/csv"
    ∧ dictGet? (make_header s0 (some [("Accept", "text/csv")]) false)
        "Accept" = some "text/csv" :=
  ⟨rfl, rfl,
   (C9_make_header_amended s0 (some [("Accept", "text/csv")])
       false).2.2.2.2.2.1
     [("Accept", "text/csv")] "Accept" "text/csv" rfl rfl rfl⟩

end AdobeAnalytics
